import Mathlib

/-
Verification development for the data-socket core (socket.go) of the FTP
server: the DataSocket abstraction, the active-mode connector
(newActiveSocket) and the passive-mode listener (newPassiveSocket /
GoListenAndServe / waitForOpenSocket), shallowly embedded over an explicit
network environment.  Network effects (address resolution, listen, dial,
accept) are inputs; the embedding returns the produced value together with
the diagnostic lines written to the logger and the trace of network
operations performed.  The concurrent hand-off between the background
accept goroutine and read/write callers is modelled as an explicit
interleaving semantics (a step function over thread identifiers).
-/

namespace FtpSocket

/-- A TCP connection, identified abstractly. -/
abbrev Conn := Nat

/-- A Go error value (the embedding only tracks its message). -/
structure GoError where
  msg : String
  deriving DecidableEq, Repr

/-- Result of net.ResolveTCPAddr, kept abstract. -/
structure TCPAddr where
  addr : String
  deriving DecidableEq, Repr

/-- An opaque tls.Config value. -/
structure TLSConfig where
  id : Nat
  deriving DecidableEq, Repr

/-- A message passed to Logger.Print: either a plain string or an error. -/
inductive LogMsg
  | text (s : String)
  | errm (e : GoError)
  deriving DecidableEq, Repr

/-- One diagnostic line: the session identifier it is tagged with, and the message. -/
abbrev LogLine := String × LogMsg

/-- Network operations performed by the core, recorded as a trace. -/
inductive NetOp
  | resolveOp (addr : String)
  | dialOp (a : TCPAddr)
  | listenOp (a : TCPAddr)
  | spawnAcceptOp
  deriving DecidableEq, Repr

/-- Resources that a Close call can release. -/
inductive Resource
  | connRes (c : Conn)
  | listenerRes
  deriving DecidableEq, Repr

/-- net.JoinHostPort: brackets the host when it contains a colon (the colon
test is over the character list, mirroring IndexByteString on the bytes). -/
def joinHostPort (host port : String) : String :=
  if host.data.contains ':' then "[" ++ host ++ "]:" ++ port
  else host ++ ":" ++ port

/-- Numeric value of a decimal digit character. -/
def digitVal (c : Char) : Nat := c.toNat - 48

/-- strconv.Atoi: optional sign followed by decimal digits, anything else is
an error (overflow is irrelevant at the string lengths the core parses). -/
def goAtoi (s : String) : Except GoError Int :=
  let parse : Bool → List Char → Except GoError Int := fun neg ds =>
    if ds ≠ [] ∧ ds.all Char.isDigit then
      let n : Nat := ds.foldl (fun a c => a * 10 + digitVal c) 0
      Except.ok (if neg then -(n : Int) else (n : Int))
    else Except.error { msg := "strconv.Atoi: invalid syntax" }
  match s.data with
  | '-' :: rest => parse true rest
  | '+' :: rest => parse false rest
  | ds => parse false ds

/-- The environment an active-socket construction runs against:
what the network returns for the resolve and dial calls. -/
structure ActiveEnv where
  resolve : String → Except GoError TCPAddr
  dial : TCPAddr → Except GoError Conn

/-- The ftpActiveSocket struct (socket.go lines 32-37; the logger field is
the opaque sink and carries no state relevant to the claims). -/
structure ftpActiveSocket where
  conn : Conn
  host : String
  port : Int
  deriving DecidableEq, Repr

/-- newActiveSocket (socket.go lines 39-65): log the attempt, resolve the
remote address, dial it; each failure is logged and returned; on success the
socket records the requested host and port.  Returns the result, the
diagnostic lines emitted, and the trace of network calls made. -/
def newActiveSocket (env : ActiveEnv) (remote : String) (port : Int) (sessionID : String) :
    Except GoError ftpActiveSocket × List LogLine × List NetOp :=
  let connectTo := joinHostPort remote (toString port)
  let log0 : List LogLine := [(sessionID, LogMsg.text ("Opening active data connection to " ++ connectTo))]
  match env.resolve connectTo with
  | Except.error e =>
      (Except.error e, log0 ++ [(sessionID, LogMsg.errm e)], [NetOp.resolveOp connectTo])
  | Except.ok raddr =>
      match env.dial raddr with
      | Except.error e =>
          (Except.error e, log0 ++ [(sessionID, LogMsg.errm e)],
           [NetOp.resolveOp connectTo, NetOp.dialOp raddr])
      | Except.ok tcpConn =>
          (Except.ok { conn := tcpConn, host := remote, port := port }, log0,
           [NetOp.resolveOp connectTo, NetOp.dialOp raddr])

/-- Host accessor of the active socket (socket.go lines 67-69). -/
def ftpActiveSocket.Host (s : ftpActiveSocket) : String := s.host

/-- Port accessor of the active socket (socket.go lines 71-73). -/
def ftpActiveSocket.Port (s : ftpActiveSocket) : Int := s.port

/-- The ftpPassiveSocket struct fields relevant to the claims (socket.go
lines 87-97; the ingress/egress channels are created but never used by any
method, and the logger is the opaque sink). -/
structure ftpPassiveSocket where
  conn : Option Conn
  port : Int
  host : String
  err : Option GoError
  tlsConfing : Option TLSConfig
  deriving DecidableEq, Repr

/-- Host accessor of the passive socket (socket.go lines 112-114). -/
def ftpPassiveSocket.Host (s : ftpPassiveSocket) : String := s.host

/-- Port accessor of the passive socket (socket.go lines 116-118). -/
def ftpPassiveSocket.Port (s : ftpPassiveSocket) : Int := s.port

/-- Close (socket.go lines 134-139): if a connection is recorded, close it
and return that call's result; otherwise return nil.  The second component
is the list of resources the call releases; the listener is a local
variable of GoListenAndServe, not a field, so Close cannot touch it. -/
def ftpPassiveSocket.Close (s : ftpPassiveSocket) (closeConn : Conn → Option GoError) :
    Option GoError × List Resource :=
  match s.conn with
  | some c => (closeConn c, [Resource.connRes c])
  | none => (none, [])

/-- A bound listener: the string form of its local address, and whether it
has been wrapped by tls.NewListener. -/
structure Listener where
  addrStr : String
  tlsWrapped : Bool
  deriving DecidableEq, Repr

/-- tls.NewListener: wraps a listener so accepted connections are TLS. -/
def tlsNewListener (l : Listener) (_cfg : TLSConfig) : Listener :=
  { l with tlsWrapped := true }

/-- strings.Split for a single-character separator, over the character
list: splits around every occurrence of the separator, keeping empty
pieces, exactly as Go does. -/
def splitChars (sep : Char) : List Char → List (List Char)
  | [] => [[]]
  | c :: rest =>
      match splitChars sep rest with
      | [] => [[]]
      | seg :: segs => if c = sep then [] :: seg :: segs else (c :: seg) :: segs

/-- strings.Split of a string on a one-character separator. -/
def goSplit (s : String) (sep : Char) : List String :=
  (splitChars sep s.data).map (fun l => String.mk l)

/-- The environment a passive-socket construction runs against. -/
structure PassiveEnv where
  resolve : String → Except GoError TCPAddr
  listen : TCPAddr → Except GoError Listener

/-- The address string GoListenAndServe resolves for binding (socket.go
line 142): JoinHostPort of the empty host and the socket's port. -/
def passiveBindAddr (socket : ftpPassiveSocket) : String :=
  joinHostPort "" (toString socket.port)

/-- GoListenAndServe, synchronous part (socket.go lines 141-181): resolve
the local bind address, listen, parse the actual port out of the bound
address (split on colon, last piece), record it, wrap the listener in TLS
when the tlsConfing field is set, and hand the listener to the spawned
accept goroutine (spawnAcceptOp in the trace; the goroutine body itself is
acceptGoroutineBody below).  Each synchronous failure is logged and
returned; no goroutine is spawned on a failure path. -/
def goListenAndServe (env : PassiveEnv) (sessionID : String) (socket : ftpPassiveSocket) :
    Except GoError (ftpPassiveSocket × Listener) × List LogLine × List NetOp :=
  let bindAddr := passiveBindAddr socket
  match env.resolve bindAddr with
  | Except.error e =>
      (Except.error e, [(sessionID, LogMsg.errm e)], [NetOp.resolveOp bindAddr])
  | Except.ok laddr =>
      match env.listen laddr with
      | Except.error e =>
          (Except.error e, [(sessionID, LogMsg.errm e)],
           [NetOp.resolveOp bindAddr, NetOp.listenOp laddr])
      | Except.ok listener =>
          let parts := goSplit listener.addrStr ':'
          match goAtoi (parts.getLastD "") with
          | Except.error e =>
              (Except.error e, [(sessionID, LogMsg.errm e)],
               [NetOp.resolveOp bindAddr, NetOp.listenOp laddr])
          | Except.ok actualPort =>
              let socket2 := { socket with port := actualPort }
              let listener2 :=
                match socket2.tlsConfing with
                | some cfg => tlsNewListener listener cfg
                | none => listener
              (Except.ok (socket2, listener2), [],
               [NetOp.resolveOp bindAddr, NetOp.listenOp laddr, NetOp.spawnAcceptOp])

/-- The passive socket struct exactly as newPassiveSocket initialises it:
new zeroes every field, then host and port are set.  The tlsConfing field
keeps its zero value nil. -/
def initPassiveSocket (host : String) (port : Int) : ftpPassiveSocket :=
  { conn := none, port := port, host := host, err := none, tlsConfing := none }

/-- newPassiveSocket (socket.go lines 99-110): allocates the struct (all
fields zero), sets ingress, egress, logger, host and port, and calls
GoListenAndServe.  The tlsConfing parameter is accepted but never assigned
to the struct field, so the field keeps its zero value nil: the parameter
is kept here to mirror the signature, and the constructed socket's
tlsConfing is none. -/
def newPassiveSocket (env : PassiveEnv) (host : String) (port : Int) (sessionID : String)
    (_tlsConfing : Option TLSConfig) :
    Except GoError (ftpPassiveSocket × Listener) × List LogLine × List NetOp :=
  let socket : ftpPassiveSocket := initPassiveSocket host port
  goListenAndServe env sessionID socket

/-- Body of waitForOpenSocket once the lock is held (socket.go lines
186-189): nil when a connection is recorded, otherwise the error slot. -/
def waitResult (conn : Option Conn) (err : Option GoError) : Option GoError :=
  match conn with
  | some _ => none
  | none => err

/-- The accept goroutine's body once it holds the lock (socket.go lines
172-178): on accept failure record the error and return; on success clear
the error slot and record the connection.  The third component is the list
of diagnostic lines the body emits — the source body contains no logger
call, so it is empty on both branches. -/
def acceptGoroutineBody (res : Except GoError Conn) (conn0 : Option Conn) (err0 : Option GoError) :
    Option Conn × Option GoError × List LogLine :=
  match res with
  | Except.error e => (conn0, some e, [])
  | Except.ok c => (some c, none, [])

/-- Read (socket.go lines 120-125), after the readiness wait has produced
`wait`: a non-nil wait error yields 0 bytes and that error, otherwise the
call delegates to the accepted connection's Read, whose outcome is
`connRead`. -/
def passiveReadOutcome (wait : Option GoError) (connRead : Nat × Option GoError) :
    Nat × Option GoError :=
  match wait with
  | some e => (0, some e)
  | none => connRead

/-- Write (socket.go lines 127-132), same shape as Read. -/
def passiveWriteOutcome (wait : Option GoError) (connWrite : Nat × Option GoError) :
    Nat × Option GoError :=
  match wait with
  | some e => (0, some e)
  | none => connWrite

/-- Program counter of the accept goroutine: before lock.Lock; holding the
lock with the accept pending; outcome recorded, unlock pending; returned. -/
inductive GPC
  | start
  | locked
  | recorded
  | done
  deriving DecidableEq, Repr

/-- Program counter of a read/write caller inside waitForOpenSocket: before
lock.Lock; holding the lock; finished with the returned error value and the
snapshot of the conn field it observed. -/
inductive RPC
  | start
  | locked
  | finished (r : Option GoError) (c : Option Conn)
  deriving DecidableEq, Repr

/-- Thread identifiers: the accept goroutine and two read/write callers. -/
inductive Tid
  | g
  | r1
  | r2
  deriving DecidableEq, Repr

/-- Shared state of one passive socket during the accept hand-off: the
mutex owner, the conn and err fields, and each thread's program counter. -/
structure PState where
  lockOwner : Option Tid
  conn : Option Conn
  err : Option GoError
  gpc : GPC
  p1 : RPC
  p2 : RPC
  deriving DecidableEq, Repr

/-- State right after GoListenAndServe returns: no connection, no error,
lock free, goroutine spawned but not yet scheduled, callers not yet in
waitForOpenSocket. -/
def initPState : PState :=
  { lockOwner := none, conn := none, err := none, gpc := GPC.start,
    p1 := RPC.start, p2 := RPC.start }

/-- One scheduling step of thread `t`.  `res` is what listener.Accept
returns to the goroutine.  Lock acquisition only proceeds when the lock is
free; a blocked thread's step is a no-op.  A caller's locked step performs
the waitForOpenSocket body and the deferred unlock. -/
def step (res : Except GoError Conn) (t : Tid) (s : PState) : PState :=
  match t with
  | Tid.g =>
      match s.gpc with
      | GPC.start =>
          if s.lockOwner = none then { s with lockOwner := some Tid.g, gpc := GPC.locked } else s
      | GPC.locked =>
          match acceptGoroutineBody res s.conn s.err with
          | (c, e, _logs) => { s with conn := c, err := e, gpc := GPC.recorded }
      | GPC.recorded => { s with lockOwner := none, gpc := GPC.done }
      | GPC.done => s
  | Tid.r1 =>
      match s.p1 with
      | RPC.start =>
          if s.lockOwner = none then { s with lockOwner := some Tid.r1, p1 := RPC.locked } else s
      | RPC.locked =>
          { s with lockOwner := none, p1 := RPC.finished (waitResult s.conn s.err) s.conn }
      | RPC.finished _ _ => s
  | Tid.r2 =>
      match s.p2 with
      | RPC.start =>
          if s.lockOwner = none then { s with lockOwner := some Tid.r2, p2 := RPC.locked } else s
      | RPC.locked =>
          { s with lockOwner := none, p2 := RPC.finished (waitResult s.conn s.err) s.conn }
      | RPC.finished _ _ => s

/-- Run a schedule: fold the step function over the list of thread ids. -/
def run (res : Except GoError Conn) (sched : List Tid) (s : PState) : PState :=
  sched.foldl (fun s t => step res t s) s

/-- The conn and err fields hold exactly the accept outcome. -/
def resolvedMatches (res : Except GoError Conn) (s : PState) : Prop :=
  match res with
  | Except.ok c => s.conn = some c ∧ s.err = none
  | Except.error e => s.conn = none ∧ s.err = some e

instance (res : Except GoError Conn) (s : PState) : Decidable (resolvedMatches res s) := by
  unfold resolvedMatches
  cases res <;> infer_instance

/-- A finished caller's observation agrees with the accept outcome. -/
def consistentFin (res : Except GoError Conn) (rv : Option GoError) (c : Option Conn) : Prop :=
  match res with
  | Except.ok cn => rv = none ∧ c = some cn
  | Except.error e => rv = some e ∧ c = none

instance (res : Except GoError Conn) (rv : Option GoError) (c : Option Conn) :
    Decidable (consistentFin res rv c) := by
  unfold consistentFin
  cases res <;> infer_instance

/-- A caller that finished observed either the pre-resolution state (both
fields empty — the race) or the resolved outcome. -/
def rpcOK (res : Except GoError Conn) (r : RPC) : Prop :=
  match r with
  | RPC.finished rv c => (rv = none ∧ c = none) ∨ consistentFin res rv c
  | _ => True

/-- Invariant holding in every state reachable from initPState under every
schedule: the goroutine's program counter is tied to the field contents and
the lock, lock ownership is consistent, and finished callers are rpcOK. -/
def Inv0 (res : Except GoError Conn) (s : PState) : Prop :=
  (match s.gpc with
   | GPC.start => s.conn = none ∧ s.err = none ∧ s.lockOwner ≠ some Tid.g
   | GPC.locked => s.conn = none ∧ s.err = none ∧ s.lockOwner = some Tid.g
   | GPC.recorded => resolvedMatches res s ∧ s.lockOwner = some Tid.g
   | GPC.done => resolvedMatches res s ∧ s.lockOwner ≠ some Tid.g)
  ∧ (s.p1 = RPC.locked → s.lockOwner = some Tid.r1)
  ∧ (s.p2 = RPC.locked → s.lockOwner = some Tid.r2)
  ∧ rpcOK res s.p1 ∧ rpcOK res s.p2

/-- Strengthened invariant for schedules where the accept goroutine takes
the gate first: the goroutine has left its start state, callers only get
the lock after the goroutine released it, and every finished caller's
observation is consistent with the accept outcome (no race branch). -/
def InvG (res : Except GoError Conn) (s : PState) : Prop :=
  Inv0 res s
  ∧ s.gpc ≠ GPC.start
  ∧ (s.p1 ≠ RPC.start → s.gpc = GPC.done)
  ∧ (s.p2 ≠ RPC.start → s.gpc = GPC.done)
  ∧ (∀ rv c, s.p1 = RPC.finished rv c → consistentFin res rv c)
  ∧ (∀ rv c, s.p2 = RPC.finished rv c → consistentFin res rv c)

/-- Sample environments used to instantiate the theorems at concrete inputs. -/
def sampleTLSConfig : TLSConfig := { id := 1 }

def samplePassiveEnvOk : PassiveEnv :=
  { resolve := fun _ => Except.ok { addr := ":0" },
    listen := fun _ => Except.ok { addrStr := "[::]:41000", tlsWrapped := false } }

def samplePassiveEnvResolveFail : PassiveEnv :=
  { resolve := fun _ => Except.error { msg := "resolve failed" },
    listen := fun _ => Except.error { msg := "unreachable" } }

def samplePassiveEnvListenFail : PassiveEnv :=
  { resolve := fun _ => Except.ok { addr := ":0" },
    listen := fun _ => Except.error { msg := "bind: address already in use" } }

def sampleActiveEnvOk : ActiveEnv :=
  { resolve := fun _ => Except.ok { addr := "10.0.0.5:2020" },
    dial := fun _ => Except.ok 7 }

def sampleActiveEnvResolveFail : ActiveEnv :=
  { resolve := fun _ => Except.error { msg := "no such host" },
    dial := fun _ => Except.ok 7 }

def sampleActiveEnvDialFail : ActiveEnv :=
  { resolve := fun _ => Except.ok { addr := "10.0.0.5:2020" },
    dial := fun _ => Except.error { msg := "connection refused" } }

/-- The diagnostic lines that carry an error value. -/
def errLines (logs : List LogLine) : List LogLine :=
  logs.filter (fun l => match l.2 with | LogMsg.errm _ => true | LogMsg.text _ => false)

theorem inv0_init (res : Except GoError Conn) : Inv0 res initPState := by
  cases res <;> simp [Inv0, initPState, rpcOK, resolvedMatches]

set_option maxHeartbeats 2000000 in
theorem inv0_step (res : Except GoError Conn) (t : Tid) (s : PState)
    (h : Inv0 res s) : Inv0 res (step res t s) := by
  obtain ⟨hg, h1, h2, hok1, hok2⟩ := h
  rcases s with ⟨lo, conn, err, gpc, p1, p2⟩
  cases t <;> cases res <;> cases gpc <;> cases p1 <;> cases p2 <;>
    rcases lo with _ | lt <;> try cases lt
  all_goals
    simp_all [step, Inv0, rpcOK, resolvedMatches, consistentFin, acceptGoroutineBody, waitResult]

theorem run_nil (res : Except GoError Conn) (s : PState) : run res [] s = s := rfl

theorem run_cons (res : Except GoError Conn) (t : Tid) (rest : List Tid) (s : PState) :
    run res (t :: rest) s = run res rest (step res t s) := rfl

theorem inv0_run (res : Except GoError Conn) (sched : List Tid) (s : PState)
    (h : Inv0 res s) : Inv0 res (run res sched s) := by
  induction sched generalizing s with
  | nil => simpa [run] using h
  | cons t rest ih =>
      rw [run_cons]
      exact ih _ (inv0_step res t s h)

set_option maxHeartbeats 1000000 in
theorem conn_stable_step (res : Except GoError Conn) (t : Tid) (s : PState) (c : Conn)
    (h : Inv0 res s) (hc : s.conn = some c) : (step res t s).conn = some c := by
  obtain ⟨hg, h1, h2, hok1, hok2⟩ := h
  rcases s with ⟨lo, conn, err, gpc, p1, p2⟩
  cases t <;> cases res <;> cases gpc <;> cases p1 <;> cases p2 <;>
    rcases lo with _ | lt <;> try cases lt
  all_goals
    simp_all [step, Inv0, rpcOK, resolvedMatches, consistentFin, acceptGoroutineBody, waitResult]

set_option maxHeartbeats 1000000 in
theorem err_stable_step (res : Except GoError Conn) (t : Tid) (s : PState) (e : GoError)
    (h : Inv0 res s) (he : s.err = some e) : (step res t s).err = some e := by
  obtain ⟨hg, h1, h2, hok1, hok2⟩ := h
  rcases s with ⟨lo, conn, err, gpc, p1, p2⟩
  cases t <;> cases res <;> cases gpc <;> cases p1 <;> cases p2 <;>
    rcases lo with _ | lt <;> try cases lt
  all_goals
    simp_all [step, Inv0, rpcOK, resolvedMatches, consistentFin, acceptGoroutineBody, waitResult]

theorem conn_stable_run (res : Except GoError Conn) (sched : List Tid) (s : PState) (c : Conn)
    (h : Inv0 res s) (hc : s.conn = some c) : (run res sched s).conn = some c := by
  induction sched generalizing s with
  | nil => simpa [run] using hc
  | cons t rest ih =>
      rw [run_cons]
      exact ih _ (inv0_step res t s h) (conn_stable_step res t s c h hc)

theorem err_stable_run (res : Except GoError Conn) (sched : List Tid) (s : PState) (e : GoError)
    (h : Inv0 res s) (he : s.err = some e) : (run res sched s).err = some e := by
  induction sched generalizing s with
  | nil => simpa [run] using he
  | cons t rest ih =>
      rw [run_cons]
      exact ih _ (inv0_step res t s h) (err_stable_step res t s e h he)

theorem step_g_done (res : Except GoError Conn) (s : PState) (h : s.gpc = GPC.done) :
    step res Tid.g s = s := by
  simp [step, h]

set_option maxHeartbeats 2000000 in
theorem invG_step (res : Except GoError Conn) (t : Tid) (s : PState)
    (h : InvG res s) : InvG res (step res t s) := by
  obtain ⟨⟨hg, h1, h2, hok1, hok2⟩, hns, hp1, hp2, hc1, hc2⟩ := h
  rcases s with ⟨lo, conn, err, gpc, p1, p2⟩
  cases t <;> cases res <;> cases gpc <;> cases p1 <;> cases p2 <;>
    rcases lo with _ | lt <;> try cases lt
  all_goals
    simp_all [step, InvG, Inv0, rpcOK, resolvedMatches, consistentFin, acceptGoroutineBody,
      waitResult]

theorem invG_run (res : Except GoError Conn) (sched : List Tid) (s : PState)
    (h : InvG res s) : InvG res (run res sched s) := by
  induction sched generalizing s with
  | nil => simpa [run] using h
  | cons t rest ih =>
      rw [run_cons]
      exact ih _ (invG_step res t s h)

theorem invG_after_g (res : Except GoError Conn) : InvG res (step res Tid.g initPState) := by
  cases res <;>
    simp [InvG, Inv0, rpcOK, resolvedMatches, consistentFin, step, initPState]

theorem newActiveSocket_resolveErr (env : ActiveEnv) (remote : String) (port : Int)
    (sessionID : String) (e : GoError)
    (h : env.resolve (joinHostPort remote (toString port)) = Except.error e) :
    newActiveSocket env remote port sessionID =
      (Except.error e,
       [(sessionID, LogMsg.text ("Opening active data connection to " ++ joinHostPort remote (toString port))),
        (sessionID, LogMsg.errm e)],
       [NetOp.resolveOp (joinHostPort remote (toString port))]) := by
  simp only [newActiveSocket, h]
  rfl

theorem newActiveSocket_dialErr (env : ActiveEnv) (remote : String) (port : Int)
    (sessionID : String) (a : TCPAddr) (e : GoError)
    (hres : env.resolve (joinHostPort remote (toString port)) = Except.ok a)
    (hdial : env.dial a = Except.error e) :
    newActiveSocket env remote port sessionID =
      (Except.error e,
       [(sessionID, LogMsg.text ("Opening active data connection to " ++ joinHostPort remote (toString port))),
        (sessionID, LogMsg.errm e)],
       [NetOp.resolveOp (joinHostPort remote (toString port)), NetOp.dialOp a]) := by
  simp only [newActiveSocket, hres, hdial]
  rfl

theorem newActiveSocket_ok (env : ActiveEnv) (remote : String) (port : Int)
    (sessionID : String) (a : TCPAddr) (c : Conn)
    (hres : env.resolve (joinHostPort remote (toString port)) = Except.ok a)
    (hdial : env.dial a = Except.ok c) :
    newActiveSocket env remote port sessionID =
      (Except.ok { conn := c, host := remote, port := port },
       [(sessionID, LogMsg.text ("Opening active data connection to " ++ joinHostPort remote (toString port)))],
       [NetOp.resolveOp (joinHostPort remote (toString port)), NetOp.dialOp a]) := by
  simp only [newActiveSocket, hres, hdial]

theorem goListenAndServe_resolveErr (env : PassiveEnv) (sessionID : String)
    (socket : ftpPassiveSocket) (e : GoError)
    (hres : env.resolve (passiveBindAddr socket) = Except.error e) :
    goListenAndServe env sessionID socket =
      (Except.error e, [(sessionID, LogMsg.errm e)], [NetOp.resolveOp (passiveBindAddr socket)]) := by
  simp only [goListenAndServe, hres]

theorem goListenAndServe_listenErr (env : PassiveEnv) (sessionID : String)
    (socket : ftpPassiveSocket) (a : TCPAddr) (e : GoError)
    (hres : env.resolve (passiveBindAddr socket) = Except.ok a)
    (hlis : env.listen a = Except.error e) :
    goListenAndServe env sessionID socket =
      (Except.error e, [(sessionID, LogMsg.errm e)],
       [NetOp.resolveOp (passiveBindAddr socket), NetOp.listenOp a]) := by
  simp only [goListenAndServe, hres, hlis]

theorem goListenAndServe_ok (env : PassiveEnv) (sessionID : String)
    (socket : ftpPassiveSocket) (a : TCPAddr) (l0 : Listener) (p : Int)
    (hres : env.resolve (passiveBindAddr socket) = Except.ok a)
    (hlis : env.listen a = Except.ok l0)
    (hparse : goAtoi ((goSplit l0.addrStr ':').getLastD "") = Except.ok p) :
    goListenAndServe env sessionID socket =
      (Except.ok ({ socket with port := p },
        match socket.tlsConfing with
        | some cfg => tlsNewListener l0 cfg
        | none => l0),
       [],
       [NetOp.resolveOp (passiveBindAddr socket), NetOp.listenOp a, NetOp.spawnAcceptOp]) := by
  simp only [goListenAndServe, hres, hlis, hparse]

theorem emptyHostJoin (p : String) : joinHostPort "" p = ":" ++ p := by
  unfold joinHostPort
  rw [if_neg (by decide)]
  rw [show ("" ++ ":") = ":" from by decide]

theorem goListenAndServe_atoiErr (env : PassiveEnv) (sessionID : String)
    (socket : ftpPassiveSocket) (a : TCPAddr) (l0 : Listener) (e : GoError)
    (hres : env.resolve (passiveBindAddr socket) = Except.ok a)
    (hlis : env.listen a = Except.ok l0)
    (hparse : goAtoi ((goSplit l0.addrStr ':').getLastD "") = Except.error e) :
    goListenAndServe env sessionID socket =
      (Except.error e, [(sessionID, LogMsg.errm e)],
       [NetOp.resolveOp (passiveBindAddr socket), NetOp.listenOp a]) := by
  simp only [goListenAndServe, hres, hlis, hparse]

/-- Claim C2 — code bug.  The spec says a non-nil TLS configuration supplied
at passive-channel construction wraps the plain listener before the
background accept starts.  newPassiveSocket never assigns its tlsConfing
argument to the struct field, so the field keeps its zero value nil and the
wrap in GoListenAndServe never fires: with a supplied configuration the
listener handed to the accept goroutine is still plain and the constructed
socket records no configuration (first conjunct).  The wrap code itself
would fire if the field were set (second conjunct), showing the dropped
assignment is the slip. -/
theorem claim_C2_bug :
    (newPassiveSocket samplePassiveEnvOk "127.0.0.1" 0 "sess1" (some sampleTLSConfig)).1 =
      Except.ok
        ({ conn := none, port := 41000, host := "127.0.0.1", err := none, tlsConfing := none },
         { addrStr := "[::]:41000", tlsWrapped := false }) ∧
    (goListenAndServe samplePassiveEnvOk "sess1"
        { conn := none, port := 0, host := "127.0.0.1", err := none,
          tlsConfing := some sampleTLSConfig }).1 =
      Except.ok
        ({ conn := none, port := 41000, host := "127.0.0.1", err := none,
           tlsConfing := some sampleTLSConfig },
         { addrStr := "[::]:41000", tlsWrapped := true }) := ⟨rfl, rfl⟩

/-- Claim C4 — confirmed.  For a passive channel requested with port 0, when
binding succeeds the actual port is parsed out of the listener's bound local
address (split on colon, last piece) and recorded before construction
returns, so the Port accessor reports the OS-assigned ephemeral port: given
that the OS assigned a port in the valid range, Port equals it and is
nonzero. -/
theorem claim_C4 (env : PassiveEnv) (host sessionID : String) (cfg : Option TLSConfig)
    (a : TCPAddr) (l0 : Listener) (p : Int)
    (hres : env.resolve ":0" = Except.ok a)
    (hlis : env.listen a = Except.ok l0)
    (hparse : goAtoi ((goSplit l0.addrStr ':').getLastD "") = Except.ok p)
    (hlo : 1 ≤ p) (hhi : p ≤ 65535) :
    ∃ sock listener logs ops,
      newPassiveSocket env host 0 sessionID cfg = (Except.ok (sock, listener), logs, ops) ∧
      ftpPassiveSocket.Port sock = p ∧ ftpPassiveSocket.Port sock ≠ 0 ∧
      1 ≤ ftpPassiveSocket.Port sock ∧ ftpPassiveSocket.Port sock ≤ 65535 := by
  have hb : passiveBindAddr (initPassiveSocket host 0) = ":0" := rfl
  have h := goListenAndServe_ok env sessionID (initPassiveSocket host 0) a l0 p
    (by rw [hb]; exact hres) hlis hparse
  exact ⟨_, _, _, _, h, rfl, by show p ≠ 0; omega, hlo, hhi⟩

theorem claim_C4_witness :
    ∃ sock listener logs ops,
      newPassiveSocket samplePassiveEnvOk "10.1.2.3" 0 "sessW" none =
        (Except.ok (sock, listener), logs, ops) ∧
      ftpPassiveSocket.Port sock = 41000 ∧ ftpPassiveSocket.Port sock ≠ 0 ∧
      1 ≤ ftpPassiveSocket.Port sock ∧ ftpPassiveSocket.Port sock ≤ 65535 :=
  claim_C4 samplePassiveEnvOk "10.1.2.3" "sessW" none { addr := ":0" }
    { addrStr := "[::]:41000", tlsWrapped := false } 41000 rfl rfl rfl
    (by decide) (by decide)

/-- Claim C6 — confirmed.  Close on a passive channel closes the accepted
connection and returns that call's result when a connection exists; when
none exists (still pending or failed), it returns nil and releases nothing;
in no case does it touch the listening socket. -/
theorem claim_C6 (s : ftpPassiveSocket) (closeConn : Conn → Option GoError) :
    (∀ c, s.conn = some c →
       ftpPassiveSocket.Close s closeConn = (closeConn c, [Resource.connRes c])) ∧
    (s.conn = none → ftpPassiveSocket.Close s closeConn = (none, [])) ∧
    Resource.listenerRes ∉ (ftpPassiveSocket.Close s closeConn).2 := by
  refine ⟨fun c hc => ?_, fun hn => ?_, ?_⟩
  · simp [ftpPassiveSocket.Close, hc]
  · simp [ftpPassiveSocket.Close, hn]
  · cases hs : s.conn <;> simp [ftpPassiveSocket.Close, hs]

theorem claim_C6_witness :
    ftpPassiveSocket.Close
      { conn := none, port := 2121, host := "example.com", err := none, tlsConfing := none }
      (fun _ => none) = (none, []) :=
  (claim_C6 _ _).2.1 rfl

/-- Claim C7 — confirmed.  Every synchronous construction failure — resolve
or dial for the active connector, local resolve or listen for the passive
listener — returns that error with no channel value; the network trace
shows exactly one resolve and at most one dial/listen call (no retry), and
no accept task is spawned on the passive failure paths. -/
theorem claim_C7 (env : ActiveEnv) (penv : PassiveEnv) (remote host sessionID : String)
    (port pport : Int) (cfg : Option TLSConfig) (e : GoError) :
    (env.resolve (joinHostPort remote (toString port)) = Except.error e →
       (newActiveSocket env remote port sessionID).1 = Except.error e ∧
       (newActiveSocket env remote port sessionID).2.2 =
         [NetOp.resolveOp (joinHostPort remote (toString port))]) ∧
    (∀ a, env.resolve (joinHostPort remote (toString port)) = Except.ok a →
       env.dial a = Except.error e →
       (newActiveSocket env remote port sessionID).1 = Except.error e ∧
       (newActiveSocket env remote port sessionID).2.2 =
         [NetOp.resolveOp (joinHostPort remote (toString port)), NetOp.dialOp a]) ∧
    (penv.resolve (passiveBindAddr (initPassiveSocket host pport)) = Except.error e →
       (newPassiveSocket penv host pport sessionID cfg).1 = Except.error e ∧
       (newPassiveSocket penv host pport sessionID cfg).2.2 =
         [NetOp.resolveOp (passiveBindAddr (initPassiveSocket host pport))] ∧
       NetOp.spawnAcceptOp ∉ (newPassiveSocket penv host pport sessionID cfg).2.2) ∧
    (∀ a, penv.resolve (passiveBindAddr (initPassiveSocket host pport)) = Except.ok a →
       penv.listen a = Except.error e →
       (newPassiveSocket penv host pport sessionID cfg).1 = Except.error e ∧
       (newPassiveSocket penv host pport sessionID cfg).2.2 =
         [NetOp.resolveOp (passiveBindAddr (initPassiveSocket host pport)), NetOp.listenOp a] ∧
       NetOp.spawnAcceptOp ∉ (newPassiveSocket penv host pport sessionID cfg).2.2) := by
  refine ⟨fun h => ?_, fun a h1 h2 => ?_, fun h => ?_, fun a h1 h2 => ?_⟩
  · rw [newActiveSocket_resolveErr env remote port sessionID e h]
    exact ⟨rfl, rfl⟩
  · rw [newActiveSocket_dialErr env remote port sessionID a e h1 h2]
    exact ⟨rfl, rfl⟩
  · have hr : newPassiveSocket penv host pport sessionID cfg =
        goListenAndServe penv sessionID (initPassiveSocket host pport) := rfl
    rw [hr, goListenAndServe_resolveErr penv sessionID (initPassiveSocket host pport) e h]
    refine ⟨rfl, rfl, by simp⟩
  · have hr : newPassiveSocket penv host pport sessionID cfg =
        goListenAndServe penv sessionID (initPassiveSocket host pport) := rfl
    rw [hr, goListenAndServe_listenErr penv sessionID (initPassiveSocket host pport) a e h1 h2]
    refine ⟨rfl, rfl, by simp⟩

theorem claim_C7_witness :
    (newActiveSocket sampleActiveEnvResolveFail "bad.invalid" 21 "sessW").1 =
      Except.error { msg := "no such host" } ∧
    (newPassiveSocket samplePassiveEnvListenFail "hostA" 2121 "sessW" none).1 =
      Except.error { msg := "bind: address already in use" } ∧
    NetOp.spawnAcceptOp ∉ (newPassiveSocket samplePassiveEnvListenFail "hostA" 2121 "sessW" none).2.2 :=
  ⟨((claim_C7 sampleActiveEnvResolveFail samplePassiveEnvListenFail "bad.invalid" "hostA" "sessW"
      21 2121 none { msg := "no such host" }).1 rfl).1,
   ((claim_C7 sampleActiveEnvResolveFail samplePassiveEnvListenFail "bad.invalid" "hostA" "sessW"
      21 2121 none { msg := "bind: address already in use" }).2.2.2 { addr := ":0" } rfl rfl).1,
   ((claim_C7 sampleActiveEnvResolveFail samplePassiveEnvListenFail "bad.invalid" "hostA" "sessW"
      21 2121 none { msg := "bind: address already in use" }).2.2.2 { addr := ":0" } rfl rfl).2.2⟩

/-- Claim C9 — confirmed.  Whenever active-channel construction succeeds,
the returned socket's Host and Port accessors are exactly the requested
remote host and port, fixed at construction. -/
theorem claim_C9 (env : ActiveEnv) (remote : String) (port : Int) (sessionID : String)
    (sock : ftpActiveSocket) (logs : List LogLine) (ops : List NetOp)
    (h : newActiveSocket env remote port sessionID = (Except.ok sock, logs, ops)) :
    ftpActiveSocket.Host sock = remote ∧ ftpActiveSocket.Port sock = port := by
  cases hres : env.resolve (joinHostPort remote (toString port)) with
  | error e =>
      rw [newActiveSocket_resolveErr env remote port sessionID e hres] at h
      simp at h
  | ok a =>
      cases hdial : env.dial a with
      | error e =>
          rw [newActiveSocket_dialErr env remote port sessionID a e hres hdial] at h
          simp at h
      | ok c =>
          rw [newActiveSocket_ok env remote port sessionID a c hres hdial] at h
          have h1 : Except.ok (ftpActiveSocket.mk c remote port) = Except.ok sock :=
            congrArg Prod.fst h
          have h2 : ftpActiveSocket.mk c remote port = sock := by
            injection h1
          rw [← h2]
          exact ⟨rfl, rfl⟩

theorem claim_C9_witness :
    ftpActiveSocket.Host { conn := 7, host := "10.0.0.5", port := 2020 } = "10.0.0.5" ∧
    ftpActiveSocket.Port { conn := 7, host := "10.0.0.5", port := 2020 } = 2020 :=
  claim_C9 sampleActiveEnvOk "10.0.0.5" 2020 "sessW"
    { conn := 7, host := "10.0.0.5", port := 2020 } _ _ rfl

/-- Claim C10 — confirmed (implicit claim).  The supplied bind host is
ignored when binding: the address handed to local-address resolution is
always the empty host joined with the socket's port (":port", i.e. all
interfaces), whatever host was supplied — the trace's first operation
resolves exactly that address — while the Host accessor of the constructed
socket still returns the host string supplied at construction. -/
theorem claim_C10 (env : PassiveEnv) (host sessionID : String) (port : Int)
    (cfg : Option TLSConfig) :
    (∀ s : ftpPassiveSocket, passiveBindAddr s = ":" ++ toString s.port) ∧
    (newPassiveSocket env host port sessionID cfg).2.2.head? =
      some (NetOp.resolveOp (":" ++ toString port)) ∧
    (∀ sock listener logs ops,
       newPassiveSocket env host port sessionID cfg = (Except.ok (sock, listener), logs, ops) →
       ftpPassiveSocket.Host sock = host) := by
  have hb : ∀ s : ftpPassiveSocket, passiveBindAddr s = ":" ++ toString s.port := by
    intro s
    unfold passiveBindAddr
    exact emptyHostJoin (toString s.port)
  have hinit : passiveBindAddr (initPassiveSocket host port) = ":" ++ toString port := hb _
  have hr : newPassiveSocket env host port sessionID cfg =
      goListenAndServe env sessionID (initPassiveSocket host port) := rfl
  refine ⟨hb, ?_, ?_⟩
  · rw [hr]
    cases hres : env.resolve (passiveBindAddr (initPassiveSocket host port)) with
    | error e =>
        rw [goListenAndServe_resolveErr env sessionID _ e hres]
        simp [hinit]
    | ok a =>
        cases hlis : env.listen a with
        | error e =>
            rw [goListenAndServe_listenErr env sessionID _ a e hres hlis]
            simp [hinit]
        | ok l0 =>
            cases hparse : goAtoi ((goSplit l0.addrStr ':').getLastD "") with
            | error e =>
                rw [goListenAndServe_atoiErr env sessionID _ a l0 e hres hlis hparse]
                simp [hinit]
            | ok p =>
                rw [goListenAndServe_ok env sessionID _ a l0 p hres hlis hparse]
                simp [hinit]
  · intro sock listener logs ops h
    rw [hr] at h
    cases hres : env.resolve (passiveBindAddr (initPassiveSocket host port)) with
    | error e =>
        rw [goListenAndServe_resolveErr env sessionID _ e hres] at h
        simp at h
    | ok a =>
        cases hlis : env.listen a with
        | error e =>
            rw [goListenAndServe_listenErr env sessionID _ a e hres hlis] at h
            simp at h
        | ok l0 =>
            cases hparse : goAtoi ((goSplit l0.addrStr ':').getLastD "") with
            | error e =>
                rw [goListenAndServe_atoiErr env sessionID _ a l0 e hres hlis hparse] at h
                simp at h
            | ok p =>
                rw [goListenAndServe_ok env sessionID _ a l0 p hres hlis hparse] at h
                have h1 := congrArg Prod.fst h
                injection h1 with h2
                rw [Prod.mk.injEq] at h2
                obtain ⟨hs, -⟩ := h2
                rw [← hs]
                rfl

theorem claim_C10_witness :
    passiveBindAddr (initPassiveSocket "hostA" 0) =
      ":" ++ toString ((initPassiveSocket "hostA" 0).port) ∧
    ftpPassiveSocket.Host
      { conn := none, port := 41000, host := "hostA", err := none, tlsConfing := none } =
      "hostA" :=
  ⟨(claim_C10 samplePassiveEnvOk "hostA" "sessW" 0 none).1 (initPassiveSocket "hostA" 0),
   (claim_C10 samplePassiveEnvOk "hostA" "sessW" 0 none).2.2
     { conn := none, port := 41000, host := "hostA", err := none, tlsConfing := none }
     { addrStr := "[::]:41000", tlsWrapped := false } []
     [NetOp.resolveOp ":0", NetOp.listenOp { addr := ":0" }, NetOp.spawnAcceptOp] rfl⟩

/-- Claim C8 — counterexample to the claim as stated.  The claim includes
the asynchronous accept failure among the paths that emit exactly one
session-tagged diagnostic line, but the accept goroutine's body contains no
logger call: on accept failure it records the error and emits zero
diagnostic lines. -/
theorem claim_C8_counterexample :
    (acceptGoroutineBody (Except.error { msg := "connection refused" }) none none).2.2 =
      ([] : List LogLine) ∧
    ((acceptGoroutineBody (Except.error { msg := "connection refused" }) none none).2.2).length ≠
      1 :=
  ⟨rfl, by decide⟩

/-- Claim C8 — amended: every synchronous error path of the core (active
resolve and dial failures, passive local-resolve, listen and port-parse
failures) emits exactly one diagnostic line carrying the error, tagged with
the session identifier, and every line emitted on those paths is so tagged;
the asynchronous accept failure of a passive channel records the error in
the terminal error slot but emits no diagnostic line; and close() on a
passive channel with no connection is silent and error-free. -/
theorem claim_C8_amended (env : ActiveEnv) (penv : PassiveEnv) (remote host sessionID : String)
    (port pport : Int) (cfg : Option TLSConfig) (e : GoError) (conn0 : Option Conn)
    (err0 : Option GoError) (s : ftpPassiveSocket) (closeConn : Conn → Option GoError) :
    (env.resolve (joinHostPort remote (toString port)) = Except.error e →
       errLines (newActiveSocket env remote port sessionID).2.1 = [(sessionID, LogMsg.errm e)] ∧
       ∀ l ∈ (newActiveSocket env remote port sessionID).2.1, l.1 = sessionID) ∧
    (∀ a, env.resolve (joinHostPort remote (toString port)) = Except.ok a →
       env.dial a = Except.error e →
       errLines (newActiveSocket env remote port sessionID).2.1 = [(sessionID, LogMsg.errm e)] ∧
       ∀ l ∈ (newActiveSocket env remote port sessionID).2.1, l.1 = sessionID) ∧
    (penv.resolve (passiveBindAddr (initPassiveSocket host pport)) = Except.error e →
       (newPassiveSocket penv host pport sessionID cfg).2.1 = [(sessionID, LogMsg.errm e)]) ∧
    (∀ a, penv.resolve (passiveBindAddr (initPassiveSocket host pport)) = Except.ok a →
       penv.listen a = Except.error e →
       (newPassiveSocket penv host pport sessionID cfg).2.1 = [(sessionID, LogMsg.errm e)]) ∧
    (∀ a l0, penv.resolve (passiveBindAddr (initPassiveSocket host pport)) = Except.ok a →
       penv.listen a = Except.ok l0 →
       goAtoi ((goSplit l0.addrStr ':').getLastD "") = Except.error e →
       (newPassiveSocket penv host pport sessionID cfg).2.1 = [(sessionID, LogMsg.errm e)]) ∧
    (acceptGoroutineBody (Except.error e) conn0 err0 =
       (conn0, some e, ([] : List LogLine))) ∧
    (s.conn = none → (ftpPassiveSocket.Close s closeConn).1 = none) := by
  have hr : newPassiveSocket penv host pport sessionID cfg =
      goListenAndServe penv sessionID (initPassiveSocket host pport) := rfl
  refine ⟨fun h => ?_, fun a h1 h2 => ?_, fun h => ?_, fun a h1 h2 => ?_,
    fun a l0 h1 h2 h3 => ?_, rfl, fun hn => ?_⟩
  · rw [newActiveSocket_resolveErr env remote port sessionID e h]
    refine ⟨rfl, ?_⟩
    intro l hl
    simp at hl
    rcases hl with rfl | rfl <;> rfl
  · rw [newActiveSocket_dialErr env remote port sessionID a e h1 h2]
    refine ⟨rfl, ?_⟩
    intro l hl
    simp at hl
    rcases hl with rfl | rfl <;> rfl
  · rw [hr, goListenAndServe_resolveErr penv sessionID _ e h]
  · rw [hr, goListenAndServe_listenErr penv sessionID _ a e h1 h2]
  · rw [hr, goListenAndServe_atoiErr penv sessionID _ a l0 e h1 h2 h3]
  · simp [ftpPassiveSocket.Close, hn]

theorem claim_C8_witness :
    errLines (newActiveSocket sampleActiveEnvResolveFail "bad.invalid" 21 "sessW").2.1 =
      [("sessW", LogMsg.errm { msg := "no such host" })] ∧
    (newPassiveSocket samplePassiveEnvListenFail "hostA" 2121 "sessW" none).2.1 =
      [("sessW", LogMsg.errm { msg := "bind: address already in use" })] ∧
    acceptGoroutineBody (Except.error { msg := "connection refused" }) none none =
      (none, some { msg := "connection refused" }, ([] : List LogLine)) :=
  ⟨((claim_C8_amended sampleActiveEnvResolveFail samplePassiveEnvListenFail "bad.invalid" "hostA"
      "sessW" 21 2121 none { msg := "no such host" } none none
      (initPassiveSocket "hostA" 0) (fun _ => none)).1 rfl).1,
   (claim_C8_amended sampleActiveEnvResolveFail samplePassiveEnvListenFail "bad.invalid" "hostA"
      "sessW" 21 2121 none { msg := "bind: address already in use" } none none
      (initPassiveSocket "hostA" 0) (fun _ => none)).2.2.2.1 { addr := ":0" } rfl rfl,
   (claim_C8_amended sampleActiveEnvResolveFail samplePassiveEnvListenFail "bad.invalid" "hostA"
      "sessW" 21 2121 none { msg := "connection refused" } none none
      (initPassiveSocket "hostA" 0) (fun _ => none)).2.2.2.2.2.1⟩

/-- Claim C1 — counterexample to the claim as stated.  If a read/write
caller acquires the readiness gate before the accept goroutine does (the
goroutine is spawned but not yet scheduled when Read is called),
waitForOpenSocket returns nil error although neither an accepted connection
nor a terminal error has been recorded: the caller proceeds past the gate
in an indeterminate state (and the subsequent conn.Read dereferences a nil
connection). -/
theorem claim_C1_counterexample :
    (run (Except.ok 7) [Tid.r1, Tid.r1] initPState).p1 = RPC.finished none none ∧
    (run (Except.ok 7) [Tid.r1, Tid.r1] initPState).conn = none ∧
    (run (Except.ok 7) [Tid.r1, Tid.r1] initPState).err = none := by
  decide

/-- Claim C1 — amended: provided the background accept task acquires the
readiness gate before any read/write caller attempts it (modelled: the
accept goroutine is scheduled first), no caller observes an indeterminate
state — every caller finishing waitForOpenSocket with nil error observed
the recorded accepted connection (the accept result), every caller
finishing with an error got exactly the recorded terminal accept error, and
any two finished callers observed the same resolved outcome. -/
theorem claim_C1_amended (res : Except GoError Conn) (rest : List Tid)
    (rv : Option GoError) (c : Option Conn)
    (hfin : (run res (Tid.g :: rest) initPState).p1 = RPC.finished rv c ∨
            (run res (Tid.g :: rest) initPState).p2 = RPC.finished rv c) :
    (rv = none → ∃ cn, res = Except.ok cn ∧ c = some cn ∧
       (run res (Tid.g :: rest) initPState).conn = some cn) ∧
    (∀ e, rv = some e → res = Except.error e ∧
       (run res (Tid.g :: rest) initPState).err = some e ∧ c = none) ∧
    (∀ rv2 c2,
       ((run res (Tid.g :: rest) initPState).p1 = RPC.finished rv2 c2 ∨
        (run res (Tid.g :: rest) initPState).p2 = RPC.finished rv2 c2) →
       rv2 = rv ∧ c2 = c) := by
  have hInv : InvG res (run res (Tid.g :: rest) initPState) := by
    rw [run_cons]
    exact invG_run res rest _ (invG_after_g res)
  obtain ⟨hInv0, hns, hp1, hp2, hc1, hc2⟩ := hInv
  have hg := hInv0.1
  have hcf : consistentFin res rv c := by
    rcases hfin with h | h
    · exact hc1 rv c h
    · exact hc2 rv c h
  have hdone : (run res (Tid.g :: rest) initPState).gpc = GPC.done := by
    rcases hfin with h | h
    · exact hp1 (by rw [h]; exact fun hx => RPC.noConfusion hx)
    · exact hp2 (by rw [h]; exact fun hx => RPC.noConfusion hx)
  rw [hdone] at hg
  have hres : resolvedMatches res (run res (Tid.g :: rest) initPState) := hg.1
  refine ⟨?_, ?_, ?_⟩
  · intro hrv
    subst hrv
    cases res with
    | ok cn =>
        simp only [consistentFin] at hcf
        simp only [resolvedMatches] at hres
        exact ⟨cn, rfl, hcf.2, hres.1⟩
    | error e2 =>
        simp only [consistentFin] at hcf
        exact absurd hcf.1 (by simp)
  · intro e hrv
    subst hrv
    cases res with
    | ok cn =>
        simp only [consistentFin] at hcf
        exact absurd hcf.1 (by simp)
    | error e2 =>
        simp only [consistentFin] at hcf
        simp only [resolvedMatches] at hres
        obtain ⟨h1', h2'⟩ := hcf
        injection h1' with he
        subst he
        exact ⟨rfl, hres.2, h2'⟩
  · intro rv2 c2 hfin2
    have hcf2 : consistentFin res rv2 c2 := by
      rcases hfin2 with h | h
      · exact hc1 rv2 c2 h
      · exact hc2 rv2 c2 h
    cases res with
    | ok cn =>
        simp only [consistentFin] at hcf hcf2
        rw [hcf.1, hcf.2, hcf2.1, hcf2.2]
        exact ⟨rfl, rfl⟩
    | error e2 =>
        simp only [consistentFin] at hcf hcf2
        rw [hcf.1, hcf.2, hcf2.1, hcf2.2]
        exact ⟨rfl, rfl⟩

theorem claim_C1_witness :
    ∃ cn, (Except.ok (7 : Conn) : Except GoError Conn) = Except.ok cn ∧
      (some (7 : Conn) : Option Conn) = some cn ∧
      (run (Except.ok 7) (Tid.g :: [Tid.g, Tid.g, Tid.r1, Tid.r1, Tid.r2, Tid.r2])
          initPState).conn = some cn :=
  (claim_C1_amended (Except.ok 7) [Tid.g, Tid.g, Tid.r1, Tid.r1, Tid.r2, Tid.r2] none (some 7)
    (Or.inl (by decide))).1 rfl

/-- Claim C3 — confirmed.  Once the background accept has failed (the accept
result is an error and the goroutine has run to completion), the terminal
error slot holds exactly that error and no connection is recorded; the slot
is never cleared under any further scheduling; a subsequent read/write
caller finishes waitForOpenSocket with exactly that error; and Read and
Write then return 0 bytes together with that same error. -/
theorem claim_C3 (e : GoError) (sched more : List Tid)
    (connRead connWrite : Nat × Option GoError)
    (hdone : (run (Except.error e) sched initPState).gpc = GPC.done) :
    (run (Except.error e) sched initPState).err = some e ∧
    (run (Except.error e) sched initPState).conn = none ∧
    (run (Except.error e) more (run (Except.error e) sched initPState)).err = some e ∧
    ((run (Except.error e) sched initPState).lockOwner = none →
     (run (Except.error e) sched initPState).p1 = RPC.start →
       (run (Except.error e) [Tid.r1, Tid.r1] (run (Except.error e) sched initPState)).p1 =
         RPC.finished (some e) none) ∧
    passiveReadOutcome (some e) connRead = (0, some e) ∧
    passiveWriteOutcome (some e) connWrite = (0, some e) := by
  have hInv := inv0_run (Except.error e) sched initPState (inv0_init _)
  have hg := hInv.1
  rw [hdone] at hg
  have herr : (run (Except.error e) sched initPState).err = some e := hg.1.2
  have hconn : (run (Except.error e) sched initPState).conn = none := hg.1.1
  refine ⟨herr, hconn, err_stable_run _ more _ e hInv herr, ?_, rfl, rfl⟩
  intro hlock hp1
  have h1 : step (Except.error e) Tid.r1 (run (Except.error e) sched initPState) =
      { run (Except.error e) sched initPState with
          lockOwner := some Tid.r1, p1 := RPC.locked } := by
    simp [step, hp1, hlock]
  have h2 : step (Except.error e) Tid.r1
      ({ run (Except.error e) sched initPState with
          lockOwner := some Tid.r1, p1 := RPC.locked }) =
      { run (Except.error e) sched initPState with
          lockOwner := none, p1 := RPC.finished (some e) none } := by
    simp [step, waitResult, hconn, herr]
  have hrun : run (Except.error e) [Tid.r1, Tid.r1] (run (Except.error e) sched initPState) =
      step (Except.error e) Tid.r1
        (step (Except.error e) Tid.r1 (run (Except.error e) sched initPState)) := rfl
  rw [hrun, h1, h2]

theorem claim_C3_witness :
    (run (Except.error { msg := "connection refused" }) [Tid.g, Tid.g, Tid.g] initPState).err =
      some { msg := "connection refused" } ∧
    (run (Except.error { msg := "connection refused" }) [Tid.r1, Tid.r1]
        (run (Except.error { msg := "connection refused" }) [Tid.g, Tid.g, Tid.g]
          initPState)).p1 =
      RPC.finished (some { msg := "connection refused" }) none :=
  ⟨(claim_C3 { msg := "connection refused" } [Tid.g, Tid.g, Tid.g] [Tid.r2] (5, none) (3, none)
      (by decide)).1,
   (claim_C3 { msg := "connection refused" } [Tid.g, Tid.g, Tid.g] [Tid.r2] (5, none) (3, none)
      (by decide)).2.2.2.1 (by decide) (by decide)⟩

/-- Claim C5 — confirmed.  Under every schedule the passive channel is
either still unresolved (no connection and no error) or resolved exactly as
the single accept outcome dictates; a recorded connection is never replaced
and a recorded error is never cleared under any further scheduling; once
the accept goroutine has finished, scheduling it again changes nothing (no
second accept); and the goroutine alone resolves the channel. -/
theorem claim_C5 (res : Except GoError Conn) (sched more : List Tid) :
    (((run res sched initPState).conn = none ∧ (run res sched initPState).err = none) ∨
      resolvedMatches res (run res sched initPState)) ∧
    (∀ c, (run res sched initPState).conn = some c →
       (run res more (run res sched initPState)).conn = some c) ∧
    (∀ e, (run res sched initPState).err = some e →
       (run res more (run res sched initPState)).err = some e) ∧
    ((run res sched initPState).gpc = GPC.done →
       step res Tid.g (run res sched initPState) = run res sched initPState) ∧
    (run res [Tid.g, Tid.g, Tid.g] initPState).gpc = GPC.done ∧
    resolvedMatches res (run res [Tid.g, Tid.g, Tid.g] initPState) := by
  have hInv := inv0_run res sched initPState (inv0_init res)
  refine ⟨?_, fun c hc => conn_stable_run res more _ c hInv hc,
    fun e he => err_stable_run res more _ e hInv he, fun hd => step_g_done res _ hd, ?_, ?_⟩
  · have hg := hInv.1
    cases hgpc : (run res sched initPState).gpc <;> rw [hgpc] at hg
    · exact Or.inl ⟨hg.1, hg.2.1⟩
    · exact Or.inl ⟨hg.1, hg.2.1⟩
    · exact Or.inr hg.1
    · exact Or.inr hg.1
  · cases res <;> rfl
  · cases res <;> exact ⟨rfl, rfl⟩

theorem claim_C5_witness :
    (run (Except.ok (7 : Conn)) [Tid.r2]
        (run (Except.ok 7) [Tid.g, Tid.g, Tid.g] initPState)).conn = some 7 ∧
    resolvedMatches (Except.ok (7 : Conn)) (run (Except.ok 7) [Tid.g, Tid.g, Tid.g] initPState) :=
  ⟨(claim_C5 (Except.ok 7) [Tid.g, Tid.g, Tid.g] [Tid.r2]).2.1 7 (by decide),
   (claim_C5 (Except.ok 7) [Tid.g, Tid.g, Tid.g] [Tid.r2]).2.2.2.2.2⟩

end FtpSocket
